import Mathlib

/-!
Shallow embedding of the Apollo 11 telemetry simulation
(source: apolo_11.py, class Apollo11Simulation) together with proofs about it.

Randomness (random.choice, random.randint), timestamps (datetime.now) and
filesystem outcomes are hoisted into explicit oracle parameters, and Python's
built-in string hash is an abstract parameter hashFn.  Library behaviour that
the claims depend on (pandas raising KeyError when an empty frame is grouped by
column names, the exception classes named in each except clause) is modelled
explicitly and documented at the corresponding definition.
-/

namespace Apollo11

/-- self.missions in Apollo11Simulation.__init__. -/
def missions : List String := ["ORBONE", "CLNM", "TMRS", "GALXONE", "UNKN"]

/-- self.device_types in Apollo11Simulation.__init__. -/
def device_types : List String := ["satellite", "spaceship", "spacesuit", "space_vehicle"]

/-- self.device_states in Apollo11Simulation.__init__. -/
def device_states : List String :=
  ["excellent", "good", "warning", "faulty", "killed", "unknown"]

/-- One simulation record: the dict built by generate_random_data. -/
structure Record where
  date : String
  mission : String
  device_type : String
  device_status : String
  hash : Option Int
  filename : String
deriving DecidableEq

/-- Python format spec 04d: decimal digits left-padded with zeros to width 4. -/
def pad4 (n : Nat) : String :=
  String.mk (List.replicate (4 - (Nat.repr n).length) '0') ++ Nat.repr n

/-- generate_hash: Python hash over the f-string concatenating date, mission,
device_type and device_status; the built-in hash is the parameter hashFn. -/
def generate_hash (hashFn : String → Int) (data : Record) : Int :=
  hashFn (data.date ++ data.mission ++ data.device_type ++ data.device_status)

/-- generate_random_data.  The internal draws random.choice(self.missions),
random.choice(self.device_types), random.choice(self.device_states) and the
two datetime.now() calls appear as the arguments mission, dtype, dstatus,
tsDate, tsLabel.  The dict is built with hash None, then hash is filled in
when the drawn mission is not the sentinel. -/
def generate_random_data (hashFn : String → Int)
    (mission dtype dstatus tsDate tsLabel : String) (file_number : Nat) : Record :=
  let base : Record :=
    { date := tsDate
      mission := if mission ≠ "UNKN" then mission else "UNKNOWN-" ++ tsLabel
      device_type := if mission = "UNKN" then "unknown" else dtype
      device_status := if mission = "UNKN" then "unknown" else dstatus
      hash := none
      filename := "APL" ++ mission ++ "-" ++ pad4 file_number ++ ".log" }
  if mission ≠ "UNKN" then { base with hash := some (generate_hash hashFn base) } else base

lemma unknown_label_not_real (ts : String) : ("UNKNOWN-" ++ ts) ∉ missions := by
  have h8 : ("UNKNOWN-" : String).length = 8 := rfl
  have hlen : ("UNKNOWN-" ++ ts).length = 8 + ts.length := by
    rw [String.length_append, h8]
  intro h
  have h1 : ("ORBONE" : String).length = 6 := rfl
  have h2 : ("CLNM" : String).length = 4 := rfl
  have h3 : ("TMRS" : String).length = 4 := rfl
  have h4 : ("GALXONE" : String).length = 7 := rfl
  have h5 : ("UNKN" : String).length = 4 := rfl
  simp only [missions, List.mem_cons, List.not_mem_nil, or_false] at h
  rcases h with h | h | h | h | h <;>
    (have hc := congrArg String.length h; rw [hlen] at hc; omega)

/-- C1: in every record produced by generate_random_data (with the drawn mission,
device type and device status coming from the configured enumerations), the hash
field is a non-None integer iff the drawn mission is not the sentinel UNKN;
device_type and device_status are both "unknown" iff the drawn mission is the
sentinel; and in the sentinel case the stored mission label is "UNKNOWN-"
followed by the drawn timestamp, which is not a real mission name. -/
theorem C1_generate_random_data_invariant (hashFn : String → Int)
    (mission dtype dstatus tsDate tsLabel : String) (n : Nat)
    (hm : mission ∈ missions) (ht : dtype ∈ device_types) (_hs : dstatus ∈ device_states) :
    ((generate_random_data hashFn mission dtype dstatus tsDate tsLabel n).hash.isSome
        ↔ mission ≠ "UNKN") ∧
    (((generate_random_data hashFn mission dtype dstatus tsDate tsLabel n).device_type = "unknown"
        ∧ (generate_random_data hashFn mission dtype dstatus tsDate tsLabel n).device_status
            = "unknown")
        ↔ mission = "UNKN") ∧
    (mission = "UNKN" →
      (generate_random_data hashFn mission dtype dstatus tsDate tsLabel n).mission
          = "UNKNOWN-" ++ tsLabel ∧
      (generate_random_data hashFn mission dtype dstatus tsDate tsLabel n).mission ∉ missions) := by
  by_cases h : mission = "UNKN"
  · subst h
    refine ⟨by simp [generate_random_data], by simp [generate_random_data],
      fun _ => ⟨by simp [generate_random_data], ?_⟩⟩
    simpa [generate_random_data] using unknown_label_not_real tsLabel
  · have hdt : dtype ≠ "unknown" := by
      intro hdt
      subst hdt
      simp [device_types] at ht
    refine ⟨by simp [generate_random_data, h], ?_, fun hc => absurd hc h⟩
    simp [generate_random_data, h, hdt]

theorem C1_generate_random_data_invariant_witness :
    ((generate_random_data (fun _ => 0) "UNKN" "satellite" "good" "010124" "010124" 1).hash.isSome
        ↔ ("UNKN" : String) ≠ "UNKN") ∧
    (((generate_random_data (fun _ => 0) "UNKN" "satellite" "good" "010124" "010124" 1).device_type
          = "unknown"
        ∧ (generate_random_data (fun _ => 0) "UNKN" "satellite" "good" "010124"
            "010124" 1).device_status = "unknown")
        ↔ ("UNKN" : String) = "UNKN") ∧
    (("UNKN" : String) = "UNKN" →
      (generate_random_data (fun _ => 0) "UNKN" "satellite" "good" "010124" "010124" 1).mission
          = "UNKNOWN-" ++ "010124" ∧
      (generate_random_data (fun _ => 0) "UNKN" "satellite" "good" "010124"
          "010124" 1).mission ∉ missions) :=
  C1_generate_random_data_invariant (fun _ => 0) "UNKN" "satellite" "good" "010124" "010124" 1
    (by decide) (by decide) (by decide)

/-! The generation loop of simulate.

simulate first draws total_files_to_generate = randint(min, max), then loops:
while total > 0, it draws num_files = min(total, randint(min, max)) and runs
for i in range(1, num_files + 1), generating and persisting one record per i
and decrementing total.  The per-while-iteration randint draws are the oracle
draw : Nat → Nat (draw k is the draw of the k-th while iteration), and the
per-record choice/timestamp draws are collected in a Gen oracle indexed by the
global number of records generated so far.  The while loop is embedded with a
fuel parameter: a none result means the loop did not finish within the given
number of while iterations. -/

/-- Oracle for the per-record draws inside generate_random_data: field g of
each oracle is the draw used for the g-th record generated in the batch
(counting from 0 across sub-batches). -/
structure Gen where
  mission : Nat → String
  dtype : Nat → String
  dstatus : Nat → String
  tsDate : Nat → String
  tsLabel : Nat → String
  hashFn : String → Int

/-- One inner for-loop of simulate: records i = 1 .. num_files, where the j-th
record of the sub-batch (j from 0) is the (made + j)-th record of the batch and
generate_random_data is called with file_number i = j + 1. -/
def subBatch (g : Gen) (made num_files : Nat) : List Record :=
  (List.range num_files).map fun j =>
    generate_random_data g.hashFn (g.mission (made + j)) (g.dtype (made + j))
      (g.dstatus (made + j)) (g.tsDate (made + j)) (g.tsLabel (made + j)) (j + 1)

/-- The while loop of simulate: fuel bounds the number of while iterations,
k counts while iterations (indexing draw), made counts records already
generated, total is total_files_to_generate.  Returns the records generated,
in order, or none if the fuel is exhausted before total reaches 0. -/
def simulateLoop (g : Gen) (draw : Nat → Nat) :
    Nat → Nat → Nat → Nat → Option (List Record)
  | 0, _, _, total => if total = 0 then some [] else none
  | fuel + 1, k, made, total =>
    if total = 0 then some []
    else
      (simulateLoop g draw fuel (k + 1) (made + Nat.min total (draw k))
          (total - Nat.min total (draw k))).map
        fun rest => subBatch g made (Nat.min total (draw k)) ++ rest

/-- The sequence of inner sub-batch sizes num_files = min(total, randint(..))
produced by the same while loop. -/
def subBatchSizes (draw : Nat → Nat) : Nat → Nat → Nat → Option (List Nat)
  | 0, _, total => if total = 0 then some [] else none
  | fuel + 1, k, total =>
    if total = 0 then some []
    else
      (subBatchSizes draw fuel (k + 1) (total - Nat.min total (draw k))).map
        fun rest => Nat.min total (draw k) :: rest

lemma subBatch_length (g : Gen) (made n : Nat) : (subBatch g made n).length = n := by
  simp [subBatch]

lemma simulateLoop_length (g : Gen) (draw : Nat → Nat) :
    ∀ fuel k made total out,
      simulateLoop g draw fuel k made total = some out → out.length = total := by
  intro fuel
  induction fuel with
  | zero =>
    intro k made total out h
    by_cases ht : total = 0 <;> simp [simulateLoop, ht] at h
    subst ht
    simp [← h]
  | succ fuel ih =>
    intro k made total out h
    by_cases ht : total = 0
    · simp [simulateLoop, ht] at h
      subst ht
      simp [← h]
    · rw [simulateLoop, if_neg ht] at h
      cases hrec : simulateLoop g draw fuel (k + 1) (made + Nat.min total (draw k))
          (total - Nat.min total (draw k)) with
      | none => rw [hrec] at h; simp at h
      | some rest =>
        rw [hrec] at h
        have h2 : some (subBatch g made (Nat.min total (draw k)) ++ rest) = some out := h
        injection h2 with h3
        have hr := ih (k + 1) (made + Nat.min total (draw k))
          (total - Nat.min total (draw k)) rest hrec
        have hmin : Nat.min total (draw k) ≤ total := Nat.min_le_left _ _
        rw [← h3, List.length_append, subBatch_length, hr]
        omega

lemma subBatchSizes_spec (g : Gen) (draw : Nat → Nat) :
    ∀ fuel k made total, (simulateLoop g draw fuel k made total).isSome →
      ∃ sizes, subBatchSizes draw fuel k total = some sizes ∧ sizes.sum = total ∧
        ∀ b, b < sizes.length →
          sizes.getD b 0 = Nat.min (total - (sizes.take b).sum) (draw (k + b)) := by
  intro fuel
  induction fuel with
  | zero =>
    intro k made total h
    by_cases ht : total = 0
    · subst ht
      exact ⟨[], by simp [subBatchSizes], rfl, fun b hb => absurd hb (by simp)⟩
    · simp [simulateLoop, ht] at h
  | succ fuel ih =>
    intro k made total h
    by_cases ht : total = 0
    · subst ht
      exact ⟨[], by simp [subBatchSizes], rfl, fun b hb => absurd hb (by simp)⟩
    · rw [simulateLoop, if_neg ht] at h
      cases hrec : simulateLoop g draw fuel (k + 1) (made + Nat.min total (draw k))
          (total - Nat.min total (draw k)) with
      | none => rw [hrec] at h; simp at h
      | some rest =>
        obtain ⟨sizes, hsizes, hsum, hchar⟩ :=
          ih (k + 1) (made + Nat.min total (draw k)) (total - Nat.min total (draw k))
            (by rw [hrec]; rfl)
        have hmin : Nat.min total (draw k) ≤ total := Nat.min_le_left _ _
        refine ⟨Nat.min total (draw k) :: sizes, ?_, by rw [List.sum_cons, hsum]; omega, ?_⟩
        · rw [subBatchSizes, if_neg ht, hsizes]
          rfl
        · intro b hb
          rcases b with _ | b
          · simp
          · have hb' : b < sizes.length := by simpa using hb
            have hkb : k + (b + 1) = k + 1 + b := by omega
            have htk : (Nat.min total (draw k) :: sizes).take (b + 1)
                = Nat.min total (draw k) :: sizes.take b := rfl
            rw [List.getD_cons_succ, hchar b hb', hkb, htk, List.sum_cons, Nat.sub_add_eq]

/-- C2: whenever the while loop of simulate completes (some out within any
fuel), the number of records generated and persisted equals the outer target
total drawn at the start, and the successive inner sub-batch sizes are exactly
min(remaining total, fresh draw from the range). -/
theorem C2_simulate_total_matches_target (g : Gen) (draw : Nat → Nat)
    (fuel k made total : Nat) (out : List Record)
    (h : simulateLoop g draw fuel k made total = some out) :
    out.length = total ∧
    ∃ sizes, subBatchSizes draw fuel k total = some sizes ∧ sizes.sum = total ∧
      ∀ b, b < sizes.length →
        sizes.getD b 0 = Nat.min (total - (sizes.take b).sum) (draw (k + b)) :=
  ⟨simulateLoop_length g draw fuel k made total out h,
    subBatchSizes_spec g draw fuel k made total (by rw [h]; rfl)⟩

/-- Constant per-record draw oracle used for concrete evaluations: every record
draws mission ORBONE, device type satellite, device status good. -/
def cGen : Gen :=
  { mission := fun _ => "ORBONE"
    dtype := fun _ => "satellite"
    dstatus := fun _ => "good"
    tsDate := fun _ => "010124000000"
    tsLabel := fun _ => "010124000000"
    hashFn := fun _ => 0 }

theorem C2_simulate_total_matches_target_witness :
    ((simulateLoop cGen (fun _ => 1) 2 0 0 2).getD []).length = 2 ∧
    ∃ sizes, subBatchSizes (fun _ => 1) 2 0 2 = some sizes ∧ sizes.sum = 2 ∧
      ∀ b, b < sizes.length →
        sizes.getD b 0 = Nat.min (2 - (sizes.take b).sum) ((fun _ => 1) (0 + b)) :=
  C2_simulate_total_matches_target cGen (fun _ => 1) 2 0 0 2
    ((simulateLoop cGen (fun _ => 1) 2 0 0 2).getD []) rfl

lemma simulateLoop_isSome_of_pos (g : Gen) (draw : Nat → Nat)
    (hd : ∀ j, 1 ≤ draw j) :
    ∀ fuel k made total, total ≤ fuel → (simulateLoop g draw fuel k made total).isSome := by
  intro fuel
  induction fuel with
  | zero =>
    intro k made total hle
    have ht : total = 0 := Nat.le_zero.mp hle
    simp [simulateLoop, ht]
  | succ fuel ih =>
    intro k made total hle
    by_cases ht : total = 0
    · simp [simulateLoop, ht]
    · rw [simulateLoop, if_neg ht]
      have hn : 1 ≤ Nat.min total (draw k) :=
        le_min_iff.mpr ⟨Nat.one_le_iff_ne_zero.mpr ht, hd k⟩
      have hrec := ih (k + 1) (made + Nat.min total (draw k))
        (total - Nat.min total (draw k)) (by omega)
      cases hx : simulateLoop g draw fuel (k + 1) (made + Nat.min total (draw k))
          (total - Nat.min total (draw k)) with
      | none => rw [hx] at hrec; simp at hrec
      | some rest => rfl

lemma simulateLoop_zero_draw_diverges (g : Gen) :
    ∀ fuel k made, simulateLoop g (fun _ => 0) fuel k made 1 = none := by
  intro fuel
  induction fuel with
  | zero => intro k made; simp [simulateLoop]
  | succ fuel ih => intro k made; rw [simulateLoop]; simp [ih]

/-- C10: if the configured range has min at least 1, every inner draw is at
least 1, so each while iteration strictly decreases the remaining total and
the generation loop of simulate finishes within (outer target) iterations;
with a lower bound of 0 an all-zero inner draw sequence leaves the remaining
total of 1 unchanged forever, so the loop never finishes for any fuel. -/
theorem C10_generation_loop_termination (g : Gen) (draw : Nat → Nat) (mn mx : Nat) :
    (1 ≤ mn → (∀ j, mn ≤ draw j ∧ draw j ≤ mx) →
      ∀ total k made, (simulateLoop g draw total k made total).isSome) ∧
    (∀ fuel k made, simulateLoop g (fun _ => 0) fuel k made 1 = none) :=
  ⟨fun h1 h2 total k made =>
      simulateLoop_isSome_of_pos g draw (fun j => le_trans h1 (h2 j).1) total k made total
        (Nat.le_refl total),
    simulateLoop_zero_draw_diverges g⟩

theorem C10_generation_loop_termination_witness :
    (simulateLoop cGen (fun _ => 1) 2 0 0 2).isSome ∧
    simulateLoop cGen (fun _ => 0) 3 0 0 1 = none :=
  ⟨(C10_generation_loop_termination cGen (fun _ => 1) 1 1).1 (Nat.le_refl 1)
      (fun _ => ⟨Nat.le_refl 1, Nat.le_refl 1⟩) 2 0 0,
    (C10_generation_loop_termination cGen (fun _ => 1) 1 1).2 3 0 0⟩

/-- C6: evaluation of the generation loop on a batch with outer target 2 and
two inner sub-batches of size 1 each (inner draws all 1), every drawn mission
being ORBONE: the for-loop counter i restarts at 1 in each sub-batch, so both
records get the filename APLORBONE-0001.log, the two records of the batch do
not have pairwise distinct filenames, and only one distinct name is written
to the devices folder although the loop counts 2 files created. -/
theorem C6_duplicate_filenames_in_one_batch :
    (simulateLoop cGen (fun _ => 1) 2 0 0 2).map (fun out => out.map Record.filename)
        = some ["APLORBONE-0001.log", "APLORBONE-0001.log"] ∧
    ¬ (((simulateLoop cGen (fun _ => 1) 2 0 0 2).getD []).map Record.filename).Nodup ∧
    ((((simulateLoop cGen (fun _ => 1) 2 0 0 2).getD []).map Record.filename).dedup).length
        = 1 ∧
    ((simulateLoop cGen (fun _ => 1) 2 0 0 2).getD []).length = 2 := by
  refine ⟨by decide, by decide, by decide, by decide⟩

/-! move_files_to_backup.

The devices and backups folders are modelled as lists of filenames (a
directory listing has no duplicate names).  shutil.move on one file either
succeeds, removing the name from devices and placing it in backups
(overwriting, hence not growing backups, if the name already exists there),
or raises an OSError; the per-file try/except catches the OSError, logs it
and leaves the file in devices.  Which moves fail is the oracle
moveOk : String → Bool.  The function returns the final filesystem state and
the files_moved_count = len(files_before_move) - len(files_after_move) that
the source logs. -/

/-- Filesystem state: names in the devices (active) and backups folders. -/
structure FS where
  devices : List String
  backups : List String

/-- One iteration of the for loop in move_files_to_backup. -/
def moveStep (moveOk : String → Bool) (acc : FS) (f : String) : FS :=
  if moveOk f then
    { devices := acc.devices.erase f
      backups := if f ∈ acc.backups then acc.backups else acc.backups.concat f }
  else acc

/-- move_files_to_backup: iterate over the pre-move listing of devices, then
report len(before) - len(after) as the moved count. -/
def move_files_to_backup (moveOk : String → Bool) (fs : FS) : FS × Nat :=
  let files_before := fs.devices
  let fs2 := files_before.foldl (moveStep moveOk) fs
  (fs2, files_before.length - fs2.devices.length)

lemma filter_length_partition {α : Type} (p : α → Bool) :
    ∀ l : List α, (l.filter p).length + (l.filter (fun x => !(p x))).length = l.length := by
  intro l
  induction l with
  | nil => rfl
  | cons a l ih =>
    by_cases hp : p a = true <;> simp [List.filter_cons, hp, ← ih] <;> omega

lemma moveFold_spec (moveOk : String → Bool) :
    ∀ (files : List String) (acc : FS),
      files.Nodup → (∀ f ∈ files, f ∈ acc.devices) → (∀ f ∈ files, f ∉ acc.backups) →
      acc.devices.Nodup →
      (files.foldl (moveStep moveOk) acc).devices
          = acc.devices.filter (fun x => !(moveOk x && files.contains x)) ∧
      (files.foldl (moveStep moveOk) acc).backups
          = acc.backups ++ files.filter moveOk := by
  intro files
  induction files with
  | nil =>
    intro acc _ _ _ _
    constructor
    · simp [List.foldl]
    · simp [List.foldl]
  | cons f rest ih =>
    intro acc hnd hmem hdisj hdev
    have hfrest : f ∉ rest := (List.nodup_cons.mp hnd).1
    have hrestnd : rest.Nodup := (List.nodup_cons.mp hnd).2
    have hfdev : f ∈ acc.devices := hmem f (by simp)
    have hfbak : f ∉ acc.backups := hdisj f (by simp)
    have hne : ∀ x ∈ rest, x ≠ f := fun x hx hxf => hfrest (hxf ▸ hx)
    by_cases hm : moveOk f = true
    · have hstep : moveStep moveOk acc f
          = FS.mk (acc.devices.erase f) (acc.backups.concat f) := by
        simp [moveStep, hm, hfbak]
      obtain ⟨ihdev, ihbak⟩ := ih (FS.mk (acc.devices.erase f) (acc.backups.concat f))
        hrestnd
        (fun x hx => (List.mem_erase_of_ne (hne x hx)).mpr (hmem x (by simp [hx])))
        (fun x hx => by
          simp only [List.concat_eq_append, List.mem_append, List.mem_singleton]
          rintro (hxb | hxf)
          · exact hdisj x (by simp [hx]) hxb
          · exact hne x hx hxf)
        (hdev.erase f)
      constructor
      · rw [List.foldl_cons, hstep, ihdev]
        show (List.filter _ (acc.devices.erase f)) = _
        rw [List.Nodup.erase_eq_filter hdev, List.filter_filter]
        refine List.filter_congr fun x _ => ?_
        by_cases hxf : x = f
        · subst hxf
          simp [hm]
        · simp [hxf]
      · rw [List.foldl_cons, hstep, ihbak]
        show acc.backups.concat f ++ _ = _
        simp [List.filter_cons, hm, List.concat_eq_append, List.append_assoc]
    · have hstep : moveStep moveOk acc f = acc := by simp [moveStep, hm]
      obtain ⟨ihdev, ihbak⟩ := ih acc hrestnd
        (fun x hx => hmem x (by simp [hx]))
        (fun x hx => hdisj x (by simp [hx]))
        hdev
      constructor
      · rw [List.foldl_cons, hstep, ihdev]
        refine List.filter_congr fun x _ => ?_
        by_cases hxf : x = f
        · subst hxf
          simp [hm]
        · simp [hxf]
      · rw [List.foldl_cons, hstep, ihbak]
        simp [List.filter_cons, hm]

/-- C3 counterexample: a batch of one file whose relocation fails.  After
move_files_to_backup completes, the devices folder still holds that file (the
active area is not empty) and the reported moved count is 0, so the active
area holding zero files of the batch does not hold for every completed run. -/
theorem C3_failed_move_leaves_active_file :
    ((move_files_to_backup (fun _ => false)
        { devices := ["APLORBONE-0001.log"], backups := [] }).1).devices
      = ["APLORBONE-0001.log"] ∧
    ((move_files_to_backup (fun _ => false)
        { devices := ["APLORBONE-0001.log"], backups := [] }).1).devices ≠ [] ∧
    (move_files_to_backup (fun _ => false)
        { devices := ["APLORBONE-0001.log"], backups := [] }).2 = 0 := by
  refine ⟨rfl, by decide, rfl⟩

/-- C3 amended: per-file relocation failures are skipped without aborting the
loop (failed files simply stay in devices); when every per-file move succeeds
the devices area ends empty; the moved count the function reports equals the
number of files successfully relocated, and (when no batch filename already
exists in the backups folder) equals the increase in the backups file count. -/
theorem C3_archive_accounting (moveOk : String → Bool) (fs : FS)
    (hnd : fs.devices.Nodup) (hdisj : ∀ f ∈ fs.devices, f ∉ fs.backups) :
    ((∀ f ∈ fs.devices, moveOk f = true) →
        (move_files_to_backup moveOk fs).1.devices = []) ∧
    (move_files_to_backup moveOk fs).1.devices
        = fs.devices.filter (fun f => !(moveOk f)) ∧
    (move_files_to_backup moveOk fs).2 = (fs.devices.filter (fun f => moveOk f)).length ∧
    (move_files_to_backup moveOk fs).1.backups.length
        = fs.backups.length + (move_files_to_backup moveOk fs).2 := by
  obtain ⟨hdev, hbak⟩ := moveFold_spec moveOk fs.devices fs hnd (fun f hf => hf) hdisj hnd
  have hdev2 : (move_files_to_backup moveOk fs).1.devices
      = fs.devices.filter (fun f => !(moveOk f)) := by
    show (fs.devices.foldl (moveStep moveOk) fs).devices = _
    rw [hdev]
    refine List.filter_congr fun x hx => ?_
    show (!(moveOk x && fs.devices.contains x)) = (!(moveOk x))
    simp [hx]
  have hlen := filter_length_partition (fun f => moveOk f) fs.devices
  have hcnt : (move_files_to_backup moveOk fs).2
      = (fs.devices.filter (fun f => moveOk f)).length := by
    show fs.devices.length - (fs.devices.foldl (moveStep moveOk) fs).devices.length = _
    have h2 : (fs.devices.foldl (moveStep moveOk) fs).devices
        = fs.devices.filter (fun f => !(moveOk f)) := hdev2
    rw [h2]
    omega
  refine ⟨?_, hdev2, hcnt, ?_⟩
  · intro hall
    rw [hdev2]
    refine List.filter_eq_nil_iff.mpr fun f hf => ?_
    simp [hall f hf]
  · show (fs.devices.foldl (moveStep moveOk) fs).backups.length = _
    rw [hbak, hcnt, List.length_append]

theorem C3_archive_accounting_witness :
    ((∀ f ∈ ["a", "b"], (fun s => s == "a") f = true) →
        (move_files_to_backup (fun s => s == "a")
            { devices := ["a", "b"], backups := ["c"] }).1.devices = []) ∧
    (move_files_to_backup (fun s => s == "a")
        { devices := ["a", "b"], backups := ["c"] }).1.devices
        = (["a", "b"] : List String).filter (fun f => !((fun s => s == "a") f)) ∧
    (move_files_to_backup (fun s => s == "a")
        { devices := ["a", "b"], backups := ["c"] }).2
      = ((["a", "b"] : List String).filter (fun f => (fun s => s == "a") f)).length ∧
    (move_files_to_backup (fun s => s == "a")
        { devices := ["a", "b"], backups := ["c"] }).1.backups.length
      = (["c"] : List String).length
        + (move_files_to_backup (fun s => s == "a")
            { devices := ["a", "b"], backups := ["c"] }).2 :=
  C3_archive_accounting (fun s => s == "a") { devices := ["a", "b"], backups := ["c"] }
    (by decide) (by decide)

/-! Aggregation reports over the in-memory buffer self.simulation_data.

Both aggregations below start with pd.DataFrame(self.simulation_data).  A
DataFrame built from an empty list has no columns at all, so selecting or
grouping by the column names mission / device_type / device_status raises
KeyError; this pandas behaviour is part of the embedded semantics and is the
error case below.  On a non-empty buffer the columns exist and groupby(keys)
. size() yields one count per distinct key, which is the groupCounts helper. -/

/-- The error raised by the pandas calls of the aggregation methods. -/
inductive PdError
  | keyError
deriving DecidableEq

/-- groupby(list_of_keys).size(): one (key, count) row per distinct key of the
frame, keys in order of first appearance. -/
def groupCounts (buf : List Record) (key : Record → String × String) :
    List ((String × String) × Nat) :=
  ((buf.map key).dedup).map fun k => (k, buf.countP (fun r => decide (key r = k)))

/-- sort_values(ascending=False): stable sort of (key, count) rows by
descending count (insertion sort; stable because an element moves left only
past strictly smaller counts). -/
def insertByCountDesc (x : (String × String) × Nat) :
    List ((String × String) × Nat) → List ((String × String) × Nat)
  | [] => [x]
  | y :: ys => if y.2 < x.2 then x :: y :: ys else y :: insertByCountDesc x ys

/-- Full sort by descending count. -/
def sortByCountDesc : List ((String × String) × Nat) → List ((String × String) × Nat)
  | [] => []
  | x :: xs => insertByCountDesc x (sortByCountDesc xs)

/-- manage_disconnections: filter rows with device_status == "unknown" and
mission != "UNKN", group by (mission, device_type), count, sort descending by
count.  On an empty buffer the groupby on the empty frame raises KeyError. -/
def manage_disconnections (buf : List Record) :
    Except PdError (List ((String × String) × Nat)) :=
  if buf.isEmpty then Except.error PdError.keyError
  else
    Except.ok (sortByCountDesc (groupCounts
      (buf.filter fun r => decide (r.device_status = "unknown" ∧ r.mission ≠ "UNKN"))
      (fun r => (r.mission, r.device_type))))

/-- calculate_percentages: group by (mission, device_type), count, divide by
len(frame) and multiply by 100.  On an empty buffer the groupby on the empty
frame raises KeyError before any division happens. -/
def calculate_percentages (buf : List Record) :
    Except PdError (List ((String × String) × Rat)) :=
  if buf.isEmpty then Except.error PdError.keyError
  else
    Except.ok ((groupCounts buf (fun r => (r.mission, r.device_type))).map
      fun kc => (kc.1, (kc.2 : Rat) / (buf.length : Rat) * 100))

/-- C4: evaluation of calculate_percentages on the empty buffer.  The code does
not return an empty report: pd.DataFrame([]) has no mission / device_type
columns, so the groupby raises KeyError (a kind that generate_reports' except
clause does not catch) instead of producing an empty percentages report. -/
theorem C4_percentages_empty_batch_raises :
    calculate_percentages [] = Except.error PdError.keyError ∧
    calculate_percentages [] ≠ Except.ok [] := by
  refine ⟨rfl, fun h => Except.noConfusion h⟩

/-- A record generated with the drawn mission being the sentinel UNKN: its
stored mission label is UNKNOWN-timestamp and its device fields are unknown. -/
def cSentinel : Record :=
  generate_random_data (fun _ => 0) "UNKN" "satellite" "excellent"
    "010124000000" "010124000000" 1

/-- C5: evaluation of manage_disconnections on a buffer holding one sentinel
record.  The stored mission label of a sentinel record is UNKNOWN-timestamp,
never the raw tag UNKN, so the filter mission != "UNKN" retains it and the
disconnections report contains a row whose mission is the sentinel label,
contradicting the claim that no report row has a sentinel mission. -/
theorem C5_sentinel_row_in_disconnections :
    manage_disconnections [cSentinel]
        = Except.ok [(("UNKNOWN-010124000000", "unknown"), 1)] ∧
    cSentinel.mission = "UNKNOWN-010124000000" ∧
    cSentinel.device_status = "unknown" ∧
    cSentinel.mission ≠ "UNKN" := by
  refine ⟨rfl, rfl, rfl, by decide⟩

/-! Control-flow skeleton of simulate / generate_reports / move_files_to_backup.

This second view of simulate models which exceptions each filesystem or pandas
step may raise and which except clauses catch them, together with the order of
the steps (as a trace) and the buffer self.simulation_data:

  - simulate wraps its whole body in try ... except (FileNotFoundError,
    PermissionError);
  - generate_reports wraps the five report calls in try ... except
    (FileNotFoundError, PermissionError, pd.errors.EmptyDataError) and then
    always runs self.simulation_data = [] when control reaches past the block;
  - the per-file shutil.move is wrapped in try ... except OSError
    (FileNotFoundError and PermissionError are OSError subclasses).

Each step's outcome (no exception, or a raised exception kind) is an oracle
field.  A result (st, none) is a normal return with final state st; a result
(st, some e) means exception e escapes with the state st as left behind. -/

/-- Exception kinds relevant to the except clauses of the source. -/
inductive Exc
  | fileNotFound
  | permission
  | emptyData
  | osOther
  | keyError
deriving DecidableEq

/-- OSError and its subclasses (caught by the per-file move handler). -/
def isOSError : Exc → Bool
  | Exc.fileNotFound => true
  | Exc.permission => true
  | Exc.osOther => true
  | _ => false

/-- The except (FileNotFoundError, PermissionError) clause of simulate. -/
def simulateCatches : Exc → Bool
  | Exc.fileNotFound => true
  | Exc.permission => true
  | _ => false

/-- The except (FileNotFoundError, PermissionError, EmptyDataError) clause of
generate_reports. -/
def reportsCatches : Exc → Bool
  | Exc.fileNotFound => true
  | Exc.permission => true
  | Exc.emptyData => true
  | _ => false

/-- Observable steps of one batch, in execution order. -/
inductive Step
  | mkDevices
  | persist (n : Nat)
  | fileListReport
  | eventsReport
  | disconnectionsReport
  | inoperableReport
  | percentagesReport
  | mkBackups
  | moveFile (n : Nat)
deriving DecidableEq

/-- Oracle fixing the outcome of every filesystem / pandas step of one batch:
none means the step succeeds, some e means it raises e.  devicesCount is the
number of names os.listdir finds in the devices folder before the move loop. -/
structure FSOracle where
  mkDevicesExc : Option Exc
  persistExc : Nat → Option Exc
  fileListExcA : Option Exc
  eventsExc : Option Exc
  disconnectionsExc : Option Exc
  inoperableExc : Option Exc
  percentagesExc : Option Exc
  fileListExcB : Option Exc
  mkBackupsExc : Option Exc
  moveExc : Nat → Option Exc
  devicesCount : Nat

/-- Orchestrator state: the buffer self.simulation_data (record ids) and the
trace of steps attempted so far. -/
structure OState where
  buffer : List Nat
  trace : List Step

/-- Attempt one step: the step is recorded, then either succeeds or raises. -/
def attempt (e : Option Exc) (s : Step) (st : OState) : OState × Option Exc :=
  (OState.mk st.buffer (st.trace.concat s), e)

/-- Sequencing: a raised exception skips the rest of the block. -/
def andThen (r : OState × Option Exc) (k : OState → OState × Option Exc) :
    OState × Option Exc :=
  match r with
  | (st, none) => k st
  | (st, some e) => (st, some e)

/-- The generation / persistence loop of simulate at step granularity: the n-th
record is written (which may raise) and then appended to the buffer. -/
def persistLoop (o : FSOracle) : Nat → Nat → OState → OState × Option Exc
  | 0, _, st => (st, none)
  | Nat.succ m, idx, st =>
    match o.persistExc idx with
    | some e => (OState.mk st.buffer (st.trace.concat (Step.persist idx)), some e)
    | none =>
        persistLoop o m (idx + 1)
          (OState.mk (st.buffer.concat idx) (st.trace.concat (Step.persist idx)))

/-- The per-file move loop: each shutil.move is wrapped in try/except OSError,
so an OSError is logged and the loop continues; any other exception escapes. -/
def moveLoop (o : FSOracle) : Nat → Nat → OState → OState × Option Exc
  | 0, _, st => (st, none)
  | Nat.succ m, idx, st =>
    let st1 := OState.mk st.buffer (st.trace.concat (Step.moveFile idx))
    match o.moveExc idx with
    | some e => if isOSError e then moveLoop o m (idx + 1) st1 else (st1, some e)
    | none => moveLoop o m (idx + 1) st1

/-- move_files_to_backup at step granularity: makedirs for backups (uncaught
here), then the per-file move loop. -/
def move_files_steps (o : FSOracle) (st : OState) : OState × Option Exc :=
  andThen (attempt o.mkBackupsExc Step.mkBackups st) fun st =>
    moveLoop o o.devicesCount 0 st

/-- The try-block body of generate_reports: the five report calls in source
order (events, disconnections, inoperable devices, percentages, file list). -/
def reportsBody (o : FSOracle) (st : OState) : OState × Option Exc :=
  andThen (attempt o.eventsExc Step.eventsReport st) fun st =>
  andThen (attempt o.disconnectionsExc Step.disconnectionsReport st) fun st =>
  andThen (attempt o.inoperableExc Step.inoperableReport st) fun st =>
  andThen (attempt o.percentagesExc Step.percentagesReport st) fun st =>
  attempt o.fileListExcB Step.fileListReport st

/-- generate_reports: the five report calls inside try/except
(FileNotFoundError, PermissionError, EmptyDataError); whenever control reaches
past the block (success or caught exception) the buffer is reset to []; an
uncaught exception escapes before the buffer reset. -/
def generate_reports (o : FSOracle) (st : OState) : OState × Option Exc :=
  match reportsBody o st with
  | (st1, none) => (OState.mk [] st1.trace, none)
  | (st1, some e) =>
    if reportsCatches e then (OState.mk [] st1.trace, none) else (st1, some e)

/-- The try-block body of simulate: makedirs devices, the generation loop, the
direct generate_file_list_report call, generate_reports, move_files_to_backup.
nfiles is the outer target drawn at the start. -/
def simulateBody (o : FSOracle) (nfiles : Nat) (st : OState) : OState × Option Exc :=
  andThen (attempt o.mkDevicesExc Step.mkDevices st) fun st =>
  andThen (persistLoop o nfiles 0 st) fun st =>
  andThen (attempt o.fileListExcA Step.fileListReport st) fun st =>
  andThen (generate_reports o st) fun st =>
  move_files_steps o st

/-- simulate at step granularity: the try-block body inside try/except
(FileNotFoundError, PermissionError). -/
def simulate (o : FSOracle) (nfiles : Nat) (st : OState) : OState × Option Exc :=
  match simulateBody o nfiles st with
  | (st1, none) => (st1, none)
  | (st1, some e) => if simulateCatches e then (st1, none) else (st1, some e)

/-- Oracle for a fully successful batch: no step raises; one file in devices. -/
def cAllOk : FSOracle :=
  { mkDevicesExc := none
    persistExc := fun _ => none
    fileListExcA := none
    eventsExc := none
    disconnectionsExc := none
    inoperableExc := none
    percentagesExc := none
    fileListExcB := none
    mkBackupsExc := none
    moveExc := fun _ => none
    devicesCount := 1 }

/-- Oracle whose only failure is a non-FileNotFound, non-Permission OSError
(for example ENOSPC) raised while writing the first record's file. -/
def cDiskFull : FSOracle :=
  { cAllOk with persistExc := fun _ => some Exc.osOther }

lemma andThen_snd (r : OState × Option Exc) (k : OState → OState × Option Exc) :
    (andThen r k).2 = match r.2 with
      | none => (k r.1).2
      | some e => some e := by
  obtain ⟨a, b⟩ := r
  cases b <;> rfl

lemma persistLoop_exc (o : FSOracle) :
    ∀ m idx st, (persistLoop o m idx st).2 = none ∨
      ∃ i e, o.persistExc i = some e ∧ (persistLoop o m idx st).2 = some e := by
  intro m
  induction m with
  | zero => intro idx st; exact Or.inl rfl
  | succ m ih =>
    intro idx st
    cases hp : o.persistExc idx with
    | some e =>
      refine Or.inr ⟨idx, e, hp, ?_⟩
      simp [persistLoop, hp]
    | none =>
      have h2 := ih (idx + 1)
        (OState.mk (st.buffer.concat idx) (st.trace.concat (Step.persist idx)))
      simpa [persistLoop, hp] using h2

lemma moveLoop_os_caught (o : FSOracle)
    (h : ∀ i e, o.moveExc i = some e → isOSError e = true) :
    ∀ m idx st, (moveLoop o m idx st).2 = none := by
  intro m
  induction m with
  | zero => intro idx st; rfl
  | succ m ih =>
    intro idx st
    cases hp : o.moveExc idx with
    | some e => simp [moveLoop, hp, h idx e hp, ih]
    | none => simp [moveLoop, hp, ih]

/-- A step result raised no exception, or raised one satisfying P. -/
def ExcOk (P : Exc → Prop) (r : OState × Option Exc) : Prop :=
  r.2 = none ∨ ∃ e, r.2 = some e ∧ P e

lemma attempt_excOk (P : Exc → Prop) (e : Option Exc) (s : Step) (st : OState)
    (he : ∀ x, e = some x → P x) : ExcOk P (attempt e s st) := by
  cases e with
  | none => exact Or.inl rfl
  | some x => exact Or.inr ⟨x, rfl, he x rfl⟩

lemma excOk_of_snd_none (P : Exc → Prop) (r : OState × Option Exc)
    (h : r.2 = none) : ExcOk P r := Or.inl h

lemma andThen_excOk (P : Exc → Prop) (r : OState × Option Exc)
    (k : OState → OState × Option Exc)
    (hr : ExcOk P r) (hk : ∀ st, ExcOk P (k st)) : ExcOk P (andThen r k) := by
  obtain ⟨a, b⟩ := r
  cases b with
  | none => exact hk a
  | some e =>
    rcases hr with h | ⟨e2, h2, hP⟩
    · exact absurd h (by simp)
    · have he : e = e2 := by
        have : some e = some e2 := h2
        injection this
      exact Or.inr ⟨e, rfl, he ▸ hP⟩

lemma persistLoop_excOk (o : FSOracle) (P : Exc → Prop)
    (h : ∀ i x, o.persistExc i = some x → P x) :
    ∀ m idx st, ExcOk P (persistLoop o m idx st) := by
  intro m
  induction m with
  | zero => intro idx st; exact Or.inl rfl
  | succ m ih =>
    intro idx st
    cases hp : o.persistExc idx with
    | some e =>
      refine Or.inr ⟨e, ?_, h idx e hp⟩
      simp [persistLoop, hp]
    | none =>
      have h2 := ih (idx + 1)
        (OState.mk (st.buffer.concat idx) (st.trace.concat (Step.persist idx)))
      rcases h2 with h2 | ⟨e, h2, hP⟩
      · exact Or.inl (by simpa [persistLoop, hp] using h2)
      · exact Or.inr ⟨e, by simpa [persistLoop, hp] using h2, hP⟩

lemma reports_snd (o : FSOracle) (st : OState) :
    (generate_reports o st).2 = match (reportsBody o st).2 with
      | none => none
      | some e => if reportsCatches e then none else some e := by
  unfold generate_reports
  cases hpair : reportsBody o st with
  | mk a b =>
    cases b with
    | none => rfl
    | some e => by_cases hc : reportsCatches e = true <;> simp [hc]

lemma generate_reports_no_escape (o : FSOracle)
    (h1 : ∀ e, o.eventsExc = some e → reportsCatches e = true)
    (h2 : ∀ e, o.disconnectionsExc = some e → reportsCatches e = true)
    (h3 : ∀ e, o.inoperableExc = some e → reportsCatches e = true)
    (h4 : ∀ e, o.percentagesExc = some e → reportsCatches e = true)
    (h5 : ∀ e, o.fileListExcB = some e → reportsCatches e = true)
    (st : OState) : (generate_reports o st).2 = none := by
  have hbody : ExcOk (fun e => reportsCatches e = true) (reportsBody o st) := by
    unfold reportsBody
    refine andThen_excOk _ _ _ (attempt_excOk _ _ _ _ h1) fun s1 => ?_
    refine andThen_excOk _ _ _ (attempt_excOk _ _ _ _ h2) fun s2 => ?_
    refine andThen_excOk _ _ _ (attempt_excOk _ _ _ _ h3) fun s3 => ?_
    refine andThen_excOk _ _ _ (attempt_excOk _ _ _ _ h4) fun s4 => ?_
    exact attempt_excOk _ _ _ _ h5
  rw [reports_snd]
  rcases hbody with hnone | ⟨e, hsome, hc⟩
  · rw [hnone]
  · rw [hsome]
    simp [hc]

lemma simulate_snd (o : FSOracle) (nfiles : Nat) (st : OState) :
    (simulate o nfiles st).2 = match (simulateBody o nfiles st).2 with
      | none => none
      | some e => if simulateCatches e then none else some e := by
  unfold simulate
  cases hpair : simulateBody o nfiles st with
  | mk a b =>
    cases b with
    | none => rfl
    | some e => by_cases hc : simulateCatches e = true <;> simp [hc]

/-- C7 counterexample: a persistence failure whose kind is an OSError other
than FileNotFoundError / PermissionError (for example a full disk) is not
matched by the except clause of simulate and escapes to the caller, so
exceptions do propagate out of simulate for some filesystem behaviours. -/
theorem C7_uncaught_persistence_error_escapes :
    (simulate cDiskFull 1 (OState.mk [] [])).2 = some Exc.osOther ∧
    (simulate cDiskFull 1 (OState.mk [] [])).2 ≠ none := by
  refine ⟨rfl, by decide⟩

/-- C7 amended: simulate returns control to its caller (no escaping exception)
provided every raised exception is of a kind its handlers catch: FileNotFound
or Permission errors for makedirs / persistence / the direct file-list call /
the backups makedirs, additionally EmptyData errors for the five report calls
inside generate_reports, and any OSError for the per-file moves; exceptions of
other kinds (such as a generic OSError during persistence) escape. -/
theorem C7_exceptions_contained_when_catchable (o : FSOracle) (nfiles : Nat) (st : OState)
    (hmd : ∀ e, o.mkDevicesExc = some e → simulateCatches e = true)
    (hp : ∀ i e, o.persistExc i = some e → simulateCatches e = true)
    (hfa : ∀ e, o.fileListExcA = some e → simulateCatches e = true)
    (h1 : ∀ e, o.eventsExc = some e → reportsCatches e = true)
    (h2 : ∀ e, o.disconnectionsExc = some e → reportsCatches e = true)
    (h3 : ∀ e, o.inoperableExc = some e → reportsCatches e = true)
    (h4 : ∀ e, o.percentagesExc = some e → reportsCatches e = true)
    (h5 : ∀ e, o.fileListExcB = some e → reportsCatches e = true)
    (hmb : ∀ e, o.mkBackupsExc = some e → simulateCatches e = true)
    (hmv : ∀ i e, o.moveExc i = some e → isOSError e = true) :
    (simulate o nfiles st).2 = none := by
  have hbody : ExcOk (fun e => simulateCatches e = true) (simulateBody o nfiles st) := by
    unfold simulateBody
    refine andThen_excOk _ _ _ (attempt_excOk _ _ _ _ hmd) fun s1 => ?_
    refine andThen_excOk _ _ _ (persistLoop_excOk o _ hp nfiles 0 s1) fun s2 => ?_
    refine andThen_excOk _ _ _ (attempt_excOk _ _ _ _ hfa) fun s3 => ?_
    refine andThen_excOk _ _ _
      (excOk_of_snd_none _ _ (generate_reports_no_escape o h1 h2 h3 h4 h5 s3)) fun s4 => ?_
    unfold move_files_steps
    refine andThen_excOk _ _ _ (attempt_excOk _ _ _ _ hmb) fun s5 => ?_
    exact excOk_of_snd_none _ _ (moveLoop_os_caught o hmv o.devicesCount 0 s5)
  rw [simulate_snd]
  rcases hbody with hnone | ⟨e, hsome, hc⟩
  · rw [hnone]
  · rw [hsome]
    simp [hc]

theorem C7_exceptions_contained_when_catchable_witness :
    (simulate cAllOk 1 (OState.mk [] [])).2 = none :=
  C7_exceptions_contained_when_catchable cAllOk 1 (OState.mk [] [])
    (fun _ h => Option.noConfusion h) (fun _ _ h => Option.noConfusion h)
    (fun _ h => Option.noConfusion h) (fun _ h => Option.noConfusion h)
    (fun _ h => Option.noConfusion h) (fun _ h => Option.noConfusion h)
    (fun _ h => Option.noConfusion h) (fun _ h => Option.noConfusion h)
    (fun _ h => Option.noConfusion h) (fun _ _ h => Option.noConfusion h)

/-- C8: whenever generate_reports returns normally (every report succeeded, or
a report raised one of the caught kinds), the buffer self.simulation_data of
the returned state is empty: the reset past the try/except block runs on both
the success and the caught-failure path. -/
theorem C8_buffer_cleared_on_return (o : FSOracle) (st st1 : OState)
    (h : generate_reports o st = (st1, none)) : st1.buffer = [] := by
  unfold generate_reports at h
  cases hpair : reportsBody o st with
  | mk a b =>
    rw [hpair] at h
    cases b with
    | none =>
      have hA : OState.mk [] a.trace = st1 := congrArg Prod.fst h
      rw [← hA]
    | some e =>
      have h2 : (if reportsCatches e = true then (OState.mk [] a.trace, (none : Option Exc))
          else (a, some e)) = (st1, none) := h
      by_cases hc : reportsCatches e = true
      · rw [if_pos hc] at h2
        have hA : OState.mk [] a.trace = st1 := congrArg Prod.fst h2
        rw [← hA]
      · rw [if_neg hc] at h2
        have hB : some e = (none : Option Exc) := congrArg Prod.snd h2
        exact Option.noConfusion hB

theorem C8_buffer_cleared_on_return_witness :
    ((generate_reports cAllOk (OState.mk [5] [])).1).buffer = [] :=
  C8_buffer_cleared_on_return cAllOk (OState.mk [5] [])
    ((generate_reports cAllOk (OState.mk [5] [])).1) rfl

lemma persistLoop_ok_trace (o : FSOracle) (hp : ∀ n, o.persistExc n = none) :
    ∀ m idx st, persistLoop o m idx st =
      (OState.mk (st.buffer ++ List.range' idx m)
        (st.trace ++ (List.range' idx m).map Step.persist), none) := by
  intro m
  induction m with
  | zero => intro idx st; simp [persistLoop, List.range']
  | succ m ih =>
    intro idx st
    rw [persistLoop, hp idx]
    rw [ih (idx + 1) (OState.mk (st.buffer.concat idx) (st.trace.concat (Step.persist idx)))]
    rw [List.range'_succ]
    simp [List.concat_eq_append, List.append_assoc]

lemma moveLoop_ok_trace (o : FSOracle) (hm : ∀ n, o.moveExc n = none) :
    ∀ m idx st, moveLoop o m idx st =
      (OState.mk st.buffer (st.trace ++ (List.range' idx m).map Step.moveFile), none) := by
  intro m
  induction m with
  | zero => intro idx st; simp [moveLoop, List.range']
  | succ m ih =>
    intro idx st
    rw [moveLoop, hm idx]
    rw [ih (idx + 1) (OState.mk st.buffer (st.trace.concat (Step.moveFile idx)))]
    rw [List.range'_succ]
    simp [List.concat_eq_append, List.append_assoc]

lemma generate_reports_ok_trace (o : FSOracle)
    (h1 : o.eventsExc = none) (h2 : o.disconnectionsExc = none)
    (h3 : o.inoperableExc = none) (h4 : o.percentagesExc = none)
    (h5 : o.fileListExcB = none) (st : OState) :
    generate_reports o st =
      (OState.mk [] (st.trace ++ [Step.eventsReport, Step.disconnectionsReport,
        Step.inoperableReport, Step.percentagesReport, Step.fileListReport]), none) := by
  unfold generate_reports reportsBody
  rw [h1, h2, h3, h4, h5]
  simp [andThen, attempt, List.concat_eq_append, List.append_assoc]

lemma count_fileList_persists (l : List Nat) :
    ((l.map Step.persist).count Step.fileListReport) = 0 := by
  rw [List.count_eq_zero]
  simp

lemma count_fileList_moves (l : List Nat) :
    ((l.map Step.moveFile).count Step.fileListReport) = 0 := by
  rw [List.count_eq_zero]
  simp

/-- C9 counterexample: on a fully successful batch of one record, the step
trace of simulate contains the file-list report twice, not exactly once:
simulate calls generate_file_list_report directly before generate_reports, and
generate_reports calls it again as its last report. -/
theorem C9_file_list_report_runs_twice :
    ((simulate cAllOk 1 (OState.mk [] [])).1.trace).count Step.fileListReport = 2 ∧
    ¬ ((simulate cAllOk 1 (OState.mk [] [])).1.trace).count Step.fileListReport = 1 ∧
    (simulate cAllOk 1 (OState.mk [] [])).2 = none := by
  refine ⟨by decide, by decide, rfl⟩

/-- C9 amended: in every fully successful batch, the file-list report is
generated exactly twice, once immediately before the four aggregation reports
(the direct call in simulate) and once immediately after them (the last call
inside generate_reports); every report generation precedes the archival steps
(backups makedirs and the per-file moves), which come last. -/
theorem C9_report_order (o : FSOracle) (nfiles : Nat) (buf0 : List Nat)
    (hmd : o.mkDevicesExc = none) (hp : ∀ n, o.persistExc n = none)
    (hfa : o.fileListExcA = none)
    (h1 : o.eventsExc = none) (h2 : o.disconnectionsExc = none)
    (h3 : o.inoperableExc = none) (h4 : o.percentagesExc = none)
    (h5 : o.fileListExcB = none)
    (hmb : o.mkBackupsExc = none) (hmv : ∀ n, o.moveExc n = none) :
    (simulate o nfiles (OState.mk buf0 [])).1.trace
        = [Step.mkDevices] ++ (List.range nfiles).map Step.persist
          ++ [Step.fileListReport, Step.eventsReport, Step.disconnectionsReport,
              Step.inoperableReport, Step.percentagesReport, Step.fileListReport,
              Step.mkBackups]
          ++ (List.range o.devicesCount).map Step.moveFile ∧
    ((simulate o nfiles (OState.mk buf0 [])).1.trace).count Step.fileListReport = 2 ∧
    (simulate o nfiles (OState.mk buf0 [])).2 = none := by
  have hsim : simulate o nfiles (OState.mk buf0 []) =
      (OState.mk []
        ([Step.mkDevices] ++ (List.range nfiles).map Step.persist
          ++ [Step.fileListReport, Step.eventsReport, Step.disconnectionsReport,
              Step.inoperableReport, Step.percentagesReport, Step.fileListReport,
              Step.mkBackups]
          ++ (List.range o.devicesCount).map Step.moveFile), none) := by
    unfold simulate simulateBody move_files_steps
    rw [hmd, hfa, hmb]
    simp only [attempt, andThen]
    rw [persistLoop_ok_trace o hp]
    simp only [andThen]
    rw [generate_reports_ok_trace o h1 h2 h3 h4 h5]
    simp only [andThen]
    rw [moveLoop_ok_trace o hmv]
    simp [List.concat_eq_append, List.append_assoc, List.range_eq_range']
  refine ⟨by rw [hsim], ?_, by rw [hsim]⟩
  rw [hsim]
  simp only [List.count_append, count_fileList_persists, count_fileList_moves]
  decide

theorem C9_report_order_witness :
    (simulate cAllOk 1 (OState.mk [] [])).1.trace
        = [Step.mkDevices] ++ (List.range 1).map Step.persist
          ++ [Step.fileListReport, Step.eventsReport, Step.disconnectionsReport,
              Step.inoperableReport, Step.percentagesReport, Step.fileListReport,
              Step.mkBackups]
          ++ (List.range cAllOk.devicesCount).map Step.moveFile ∧
    ((simulate cAllOk 1 (OState.mk [] [])).1.trace).count Step.fileListReport = 2 ∧
    (simulate cAllOk 1 (OState.mk [] [])).2 = none :=
  C9_report_order cAllOk 1 [] rfl (fun _ => rfl) rfl rfl rfl rfl rfl rfl rfl (fun _ => rfl)

end Apollo11
